import Mathlib

/-!
Verification of the job-tracking core (normalizer, matcher, classifier) of the
jobseekers-shovel repository, as a shallow embedding in Lean 4.

Modelling conventions:
* Python strings are Lean strings; only ASCII inputs are exercised, so the
  ASCII behaviour of lower-casing and of the regex character class for word
  characters is embedded.
* Python datetimes are modelled as integer day counts; a timedelta of d days
  is the integer d, and the .date() rendering of a timestamp t is toString t.
  Every comparison and subtraction the code performs is order-isomorphic to
  this model.
* Python floats are modelled as rationals; the rapidfuzz similarity scores and
  the fixed weights 0.10 / 0.60 / 0.30 are all exact decimal values.
* The in-memory dict known_jobs (insertion ordered, keyed by the generated
  job id) is modelled as a List in insertion order; in-place mutation of one
  job object is modelled as an id-keyed pointwise replacement, and uuid4 is
  modelled by a fresh-id counter threaded through the classifier state.
* The rapidfuzz library functions fuzz.ratio, fuzz.token_sort_ratio and
  fuzz.token_set_ratio that matcher.py delegates to are embedded from the
  semantics of the library: ratio is the normalized indel similarity
  (len1 + len2 - 2 * lcs over len1 + len2), token_sort_ratio sorts the
  whitespace tokens before applying ratio, and token_set_ratio performs the
  set decomposition with the fuzzywuzzy-compatible rule that an empty token
  set on either side scores 0.
-/

/-- Lexicographic code-point comparison of character lists: the order behind
Python string comparison.  Defined structurally so it evaluates in the
kernel. -/
def lexLe : List Char -> List Char -> Bool
  | [], _ => true
  | _ :: _, [] => false
  | a :: as, b :: bs => if a = b then lexLe as bs else decide (a < b)

/-- Python string comparison s1 <= s2 (code-point lexicographic). -/
def strLe (s1 s2 : String) : Bool :=
  lexLe s1.toList s2.toList

/-- Split a character list at every occurrence of the separator, keeping empty
parts: the behaviour of Python str.split(sep). -/
def splitCharAux (sep : Char) (acc : List Char) : List Char -> List (List Char)
  | [] => [acc.reverse]
  | c :: cs =>
    if c = sep then acc.reverse :: splitCharAux sep [] cs
    else splitCharAux sep (c :: acc) cs

/-- Python str.split(sep) for a single-character separator. -/
def pySplitChar (sep : Char) (s : String) : List String :=
  (splitCharAux sep [] s.toList).map String.mk

/-- Tokenizer of Python str.split() with no argument: whitespace runs separate
tokens and produce no empty parts. -/
def wsAux (acc : List Char) : List Char -> List (List Char)
  | [] => if acc.isEmpty then [] else [acc.reverse]
  | c :: cs =>
    if c.isWhitespace then
      if acc.isEmpty then wsAux [] cs else acc.reverse :: wsAux [] cs
    else wsAux (c :: acc) cs

/-- Python str.split() with no argument: split on whitespace runs, no empty parts. -/
def pySplitWS (s : String) : List String :=
  (wsAux [] s.toList).map String.mk

/-- Join a list of strings with a single-space separator. -/
def joinSpace : List String -> String
  | [] => ""
  | [x] => x
  | x :: xs => x ++ " " ++ joinSpace xs

/-- Python re.sub of whitespace runs by a single space followed by str.strip():
collapse interior whitespace and trim the ends. -/
def collapseWS (s : String) : String :=
  joinSpace (pySplitWS s)

/-- Python str.strip() with no argument: remove leading and trailing
whitespace. -/
def pyStripWS (s : String) : String :=
  String.mk (((s.toList.dropWhile Char.isWhitespace).reverse.dropWhile
    Char.isWhitespace).reverse)

/-- Python word.strip(".") as used by the normalizer: remove leading and
trailing period characters. -/
def stripDots (s : String) : String :=
  String.mk (((s.toList.dropWhile (fun c => c == '.')).reverse.dropWhile
    (fun c => c == '.')).reverse)

/-- Character-wise transform of a string, used for the lower-casing and the
regex substitutions of the normalizer. -/
def mapStr (f : Char -> Char) (s : String) : String :=
  String.mk (s.toList.map f)

/-- Python str.lower() (ASCII model). -/
def pyLower (s : String) : String :=
  mapStr Char.toLower s

/-- ASCII model of the regex class backslash-w: letters, digits, underscore. -/
def isWordChar (c : Char) : Bool :=
  c.isAlphanum || c == '_'

/-- Insert a string into an ascending list (lexicographic code-point order),
keeping equal elements stable: the sort used for Python sorted(). -/
def insortStr (x : String) : List String -> List String
  | [] => [x]
  | y :: ys => if strLe x y then x :: y :: ys else y :: insortStr x ys

/-- Ascending stable sort of strings, the model of Python sorted(). -/
def sortStrs (l : List String) : List String :=
  l.foldr insortStr []

/-- Python sorted(set(...)) on a token list: sorted with duplicates removed. -/
def sortedDedup (l : List String) : List String :=
  (sortStrs l).dedup

/-- One row of the longest-common-subsequence recurrence: given the row
function for the tail as, extend it to a :: as.  Structured as nested
structural recursion so it evaluates in the kernel. -/
def lcsRow (a : Char) (prev : List Char -> Nat) : List Char -> Nat
  | [] => 0
  | b :: bs => if a = b then prev bs + 1 else max (lcsRow a prev bs) (prev (b :: bs))

/-- The longest-common-subsequence length as a function of the second list. -/
def lcsFun : List Char -> List Char -> Nat
  | [] => fun _ => 0
  | a :: as => lcsRow a (lcsFun as)

/-- Length of the longest common subsequence of two character lists, the
quantity underlying the rapidfuzz indel distance. -/
def lcs (l1 l2 : List Char) : Nat :=
  lcsFun l1 l2

/-- Rapidfuzz indel distance between two strings: insertions and deletions
only, which equals len1 + len2 - 2 * lcs. -/
def indelDist (s1 s2 : String) : Nat :=
  s1.toList.length + s2.toList.length - 2 * lcs s1.toList s2.toList

/-- Embedding of rapidfuzz fuzz.ratio: normalized indel similarity scaled to
0..100, with two empty strings scoring 100. -/
def fuzz.ratio (s1 s2 : String) : ℚ :=
  let lensum := s1.toList.length + s2.toList.length
  if lensum = 0 then 100
  else 100 * (1 - (indelDist s1 s2 : ℚ) / (lensum : ℚ))

/-- Whitespace tokens sorted and joined by single spaces, the preprocessing of
fuzz.token_sort_ratio. -/
def sortJoin (s : String) : String :=
  joinSpace (sortStrs (pySplitWS s))

/-- Embedding of rapidfuzz fuzz.token_sort_ratio: fuzz.ratio on the sorted
token joins. -/
def fuzz.token_sort_ratio (s1 s2 : String) : ℚ :=
  fuzz.ratio (sortJoin s1) (sortJoin s2)

/-- Numeric core of rapidfuzz fuzz.token_set_ratio, over the lengths of the
joined intersection and difference strings and the indel distance between the
two joined differences: the normalized distance of the two recombined
sentences, and when the intersection is nonempty also the two
deletion-only ratios, maximised. -/
def tsrCore (ab_len ba_len sect_len dist : Nat) : ℚ :=
  let bonus : Nat := if sect_len ≠ 0 then 1 else 0
  let sect_ab_len := sect_len + bonus + ab_len
  let sect_ba_len := sect_len + bonus + ba_len
  let result := 100 * (1 - (dist : ℚ) / ((sect_ab_len + sect_ba_len : Nat) : ℚ))
  if sect_len = 0 then result
  else
    let sect_ab_ratio := 100 * (1 - ((1 + ab_len : Nat) : ℚ) / ((sect_len + sect_ab_len : Nat) : ℚ))
    let sect_ba_ratio := 100 * (1 - ((1 + ba_len : Nat) : ℚ) / ((sect_len + sect_ba_len : Nat) : ℚ))
    max result (max sect_ab_ratio sect_ba_ratio)

/-- Embedding of rapidfuzz fuzz.token_set_ratio: decompose the two sorted
token sets into intersection and differences, score the recombined strings
through the numeric core and take the maximum.  Following the library (for
fuzzywuzzy compatibility) an empty token set on either side scores 0, and a
nonempty intersection with an empty difference on either side scores 100. -/
def fuzz.token_set_ratio (s1 s2 : String) : ℚ :=
  let tokens_a := sortedDedup (pySplitWS s1)
  let tokens_b := sortedDedup (pySplitWS s2)
  if tokens_a.isEmpty || tokens_b.isEmpty then 0
  else
    let sect := tokens_a.filter (fun t => tokens_b.contains t)
    let diff_ab := tokens_a.filter (fun t => !(tokens_b.contains t))
    let diff_ba := tokens_b.filter (fun t => !(tokens_a.contains t))
    if !sect.isEmpty && (diff_ab.isEmpty || diff_ba.isEmpty) then 100
    else
      let diff_ab_joined := joinSpace diff_ab
      let diff_ba_joined := joinSpace diff_ba
      tsrCore diff_ab_joined.toList.length diff_ba_joined.toList.length
        (joinSpace sect).toList.length (indelDist diff_ab_joined diff_ba_joined)

/-- Title abbreviation table of JobNormalizer.TITLE_ABBREVIATIONS. -/
def TITLE_ABBREVIATIONS : List (String × String) :=
  [("sr", "senior"), ("sr.", "senior"), ("jr", "junior"), ("jr.", "junior"),
   ("mgr", "manager"), ("mgr.", "manager"), ("eng", "engineer"),
   ("engr", "engineer"), ("engr.", "engineer"), ("dev", "developer"),
   ("devops", "development operations"), ("sre", "site reliability engineer"),
   ("qa", "quality assurance"), ("ui", "user interface"),
   ("ux", "user experience"), ("vp", "vice president"),
   ("cto", "chief technology officer"), ("ceo", "chief executive officer"),
   ("cfo", "chief financial officer"), ("coo", "chief operating officer"),
   ("svp", "senior vice president"), ("evp", "executive vice president"),
   ("assoc", "associate"), ("asst", "assistant"), ("dir", "director"),
   ("dir.", "director"), ("admin", "administrator"), ("coord", "coordinator"),
   ("coord.", "coordinator"), ("acct", "account"), ("dept", "department"),
   ("ops", "operations"), ("spec", "specialist")]

/-- Location phrase table of JobNormalizer.LOCATION_NORMALIZATIONS. -/
def LOCATION_NORMALIZATIONS : List (String × String) :=
  [("sf", "san francisco"), ("ny", "new york"), ("nyc", "new york city"),
   ("la", "los angeles"), ("dc", "washington dc"), ("remote us", "remote"),
   ("remote - us", "remote"), ("remote (us)", "remote"),
   ("work from home", "remote"), ("wfh", "remote")]

/-- State abbreviation table of JobNormalizer.STATE_ABBREVIATIONS. -/
def STATE_ABBREVIATIONS : List (String × String) :=
  [("ca", "california"), ("ny", "new york"), ("tx", "texas"),
   ("fl", "florida"), ("il", "illinois"), ("ma", "massachusetts"),
   ("wa", "washington"), ("pa", "pennsylvania"), ("oh", "ohio"),
   ("ga", "georgia"), ("nc", "north carolina"), ("mi", "michigan"),
   ("nj", "new jersey"), ("va", "virginia"), ("az", "arizona"),
   ("co", "colorado"), ("or", "oregon"), ("md", "maryland"),
   ("tn", "tennessee"), ("in", "indiana")]

/-- Embedding of JobNormalizer.normalize_title. -/
def normalize_title (title : String) : String :=
  if title = "" then ""
  else
    let lowered := pyLower title
    let subbed := mapStr (fun c =>
      if isWordChar c || c.isWhitespace || c == '-' then c else ' ') lowered
    let words := pySplitWS subbed
    let expanded_words := words.map (fun word =>
      match TITLE_ABBREVIATIONS.lookup (stripDots word) with
      | some expansion => expansion
      | none => word)
    let rejoined := joinSpace expanded_words
    let dehyphened := mapStr (fun c => if c = '-' then ' ' else c) rejoined
    collapseWS dehyphened

/-- Embedding of JobNormalizer.normalize_location. -/
def normalize_location (location : String) : String :=
  if location = "" then "unknown"
  else
    let lowered := pyLower location
    match LOCATION_NORMALIZATIONS.lookup lowered with
    | some mapped => mapped
    | none =>
      let subbed := mapStr (fun c =>
        if isWordChar c || c.isWhitespace || c == ',' then c else ' ') lowered
      let parts := (pySplitChar ',' subbed).map pyStripWS
      let processed_parts := parts.map (fun part =>
        let words := pySplitWS part
        let expanded_words := words.map (fun word =>
          if word.toList.length = 2 then
            match STATE_ABBREVIATIONS.lookup word with
            | some state => state
            | none =>
              match LOCATION_NORMALIZATIONS.lookup word with
              | some mapped => mapped
              | none => word
          else
            match LOCATION_NORMALIZATIONS.lookup word with
            | some mapped => mapped
            | none => word)
        joinSpace expanded_words)
      let joined := joinSpace processed_parts
      let collapsed := collapseWS joined
      if collapsed = "" then "unknown" else collapsed

/-- Embedding of JobNormalizer.create_signature. -/
def create_signature (company_id title location : String) : String :=
  company_id ++ "|" ++ normalize_title title ++ "|" ++ normalize_location location

/-- Embedding of JobMatcher.calculate_similarity: split both signatures on the
pipe; with exactly three components each, combine the component scores with
the fixed weights, otherwise fall back to the whole-string token set ratio. -/
def calculate_similarity (signature1 signature2 : String) : ℚ :=
  let parts1 := pySplitChar '|' signature1
  let parts2 := pySplitChar '|' signature2
  if parts1.length ≠ 3 ∨ parts2.length ≠ 3 then
    fuzz.token_set_ratio signature1 signature2 / 100
  else
    let company1 := parts1.getD 0 ""
    let title1 := parts1.getD 1 ""
    let location1 := parts1.getD 2 ""
    let company2 := parts2.getD 0 ""
    let title2 := parts2.getD 1 ""
    let location2 := parts2.getD 2 ""
    let company_score := fuzz.ratio company1 company2
    let title_score := fuzz.token_sort_ratio title1 title2
    let location_score := fuzz.ratio location1 location2
    let combined_score :=
      0.10 * company_score + 0.60 * title_score + 0.30 * location_score
    combined_score / 100

/-- The accumulator loop of JobMatcher.find_best_match: scan the candidates
keeping the best score seen so far, updating only on a strict improvement. -/
def bestLoop (f : String → ℚ) : List String → Option String × ℚ → Option String × ℚ
  | [], acc => acc
  | candidate :: rest, acc =>
    if acc.2 < f candidate then bestLoop f rest (some candidate, f candidate)
    else bestLoop f rest acc

/-- Embedding of JobMatcher.find_best_match (without return_score, as the
classifier calls it): linear scan from best score 0.0 and no best match,
returning the tracked best candidate only when the best score reaches the
threshold. -/
def find_best_match (similarity_threshold : ℚ) (query_signature : String)
    (candidate_signatures : List String) : Option String :=
  if candidate_signatures.isEmpty then none
  else
    let r := bestLoop (fun c => calculate_similarity query_signature c)
      candidate_signatures (none, 0)
    if similarity_threshold ≤ r.2 then r.1 else none

/-- Matcher configuration record: the stored similarity threshold. -/
structure JobMatcher where
  similarity_threshold : ℚ
deriving DecidableEq

/-- Embedding of JobMatcher.__init__: reject a threshold outside the closed
interval from 0.0 to 1.0 with a ValueError, otherwise store it unchanged. -/
def JobMatcher.init (similarity_threshold : ℚ) : Except String JobMatcher :=
  if ¬(0 ≤ similarity_threshold ∧ similarity_threshold ≤ 1) then
    Except.error "Similarity threshold must be between 0.0 and 1.0"
  else Except.ok { similarity_threshold := similarity_threshold }

/-- Embedding of the JobClassification enum. -/
inductive JobClassification where
  | NEW
  | REPOST
  | EXISTING
deriving DecidableEq, Repr, Inhabited

/-- Embedding of the JobStatus enum. -/
inductive JobStatus where
  | ACTIVE
  | MISSING
  | CLOSED
  | REOPENED
deriving DecidableEq, Repr, Inhabited

instance : BEq JobStatus := ⟨fun a b => decide (a = b)⟩

/-- Embedding of the RawJob dataclass (the fields the classifier reads). -/
structure RawJob where
  company_id : String
  company_name : String
  title : String
  location : String
  url : String
  source_identifier : Option String := none
  department : Option String := none
  description : Option String := none
deriving DecidableEq, Repr, Inhabited

/-- One entry of the observations list: the dict with timestamp,
source_identifier, url and the optional note key. -/
structure Observation where
  timestamp : Int
  source_identifier : Option String
  url : String
  note : Option String := none
deriving DecidableEq, Repr, Inhabited

/-- Embedding of the ClassifiedJob dataclass. -/
structure ClassifiedJob where
  id : String
  company_id : String
  company_name : String
  title : String
  location : String
  url : String
  signature : String
  classification : JobClassification
  classification_reasoning : String
  status : JobStatus
  first_seen : Int
  last_seen : Int
  observations : List Observation
  source_identifier : Option String := none
  department : Option String := none
  description : Option String := none
  created_at : Option Int := none
  updated_at : Option Int := none
deriving DecidableEq, Repr, Inhabited

/-- Embedding of the JobClassifier state: configuration, the insertion-ordered
known_jobs dict as a list, and the fresh-id counter standing in for uuid4.
The similarity threshold is the one held by the contained JobMatcher. -/
structure JobClassifier where
  repost_window_days : Int
  similarity_threshold : ℚ
  known_jobs : List ClassifiedJob
  next_id : Nat
deriving DecidableEq, Repr, Inhabited

/-- Embedding of JobClassifier._find_by_source_id: Python treats a None or
empty source identifier as falsy and skips the search; otherwise the first
job (dict iteration order) with the same company id and identical stored
source identifier is returned, regardless of its status. -/
def find_by_source_id (jobs : List ClassifiedJob) (company_id : String)
    (source_identifier : Option String) : Option ClassifiedJob :=
  match source_identifier with
  | none => none
  | some s =>
    if s = "" then none
    else jobs.find? (fun job =>
      job.company_id == company_id && job.source_identifier == some s)

/-- The recent-candidate filter inside JobClassifier._find_similar_recent_job:
same company, last seen at or after the cutoff, status not Closed. -/
def recent_jobs_of (jobs : List ClassifiedJob) (company_id : String)
    (cutoff_time : Int) : List ClassifiedJob :=
  jobs.filter (fun job =>
    job.company_id == company_id &&
    decide (cutoff_time ≤ job.last_seen) &&
    !(job.status == JobStatus.CLOSED))

/-- Embedding of JobClassifier._find_similar_recent_job: filter to the recent
candidates, run the best-signature match, then return the first recent job
carrying the best-matching signature (a falsy best match is treated as no
match, as in Python). -/
def find_similar_recent_job (st : JobClassifier) (signature : String)
    (company_id : String) (current_time : Int) : Option ClassifiedJob :=
  let cutoff_time := current_time - st.repost_window_days
  let recent_jobs := recent_jobs_of st.known_jobs company_id cutoff_time
  if recent_jobs.isEmpty then none
  else
    let signatures := recent_jobs.map (fun job => job.signature)
    match find_best_match st.similarity_threshold signature signatures with
    | none => none
    | some best_match =>
      if best_match = "" then none
      else recent_jobs.find? (fun job => job.signature == best_match)

/-- Embedding of JobClassifier._find_closed_similar_job: same search restricted
to the Closed jobs of the company, with no time window. -/
def find_closed_similar_job (st : JobClassifier) (signature : String)
    (company_id : String) : Option ClassifiedJob :=
  let closed_jobs := st.known_jobs.filter (fun job =>
    job.company_id == company_id && job.status == JobStatus.CLOSED)
  if closed_jobs.isEmpty then none
  else
    let signatures := closed_jobs.map (fun job => job.signature)
    match find_best_match st.similarity_threshold signature signatures with
    | none => none
    | some best_match =>
      if best_match = "" then none
      else closed_jobs.find? (fun job => job.signature == best_match)

/-- The in-place mutation performed by JobClassifier._update_existing_job on
the found job object: bump last_seen and updated_at, append one observation,
and flip a Missing status back to Active. -/
def updateExistingFields (raw_job : RawJob) (current_time : Int)
    (job : ClassifiedJob) : ClassifiedJob :=
  { job with
    last_seen := current_time
    updated_at := some current_time
    observations := job.observations ++
      [{ timestamp := current_time
         source_identifier := raw_job.source_identifier
         url := raw_job.url }]
    status := if job.status == JobStatus.MISSING then JobStatus.ACTIVE else job.status }

/-- Embedding of JobClassifier._update_existing_job: mutate the found job in
the id-keyed store and return it. -/
def update_existing_job (st : JobClassifier) (existing_job : ClassifiedJob)
    (raw_job : RawJob) (current_time : Int) : ClassifiedJob × JobClassifier :=
  let updated := updateExistingFields raw_job current_time existing_job
  (updated,
   { st with known_jobs := st.known_jobs.map (fun j =>
       if j.id == existing_job.id then updateExistingFields raw_job current_time j
       else j) })

/-- Embedding of JobClassifier._classify_as_new: build a fresh record with
classification New and insert it at the end of the store. -/
def classify_as_new (st : JobClassifier) (raw_job : RawJob) (signature : String)
    (current_time : Int) : ClassifiedJob × JobClassifier :=
  let job_id := toString st.next_id
  let classified : ClassifiedJob :=
    { id := job_id
      company_id := raw_job.company_id
      company_name := raw_job.company_name
      title := raw_job.title
      location := raw_job.location
      url := raw_job.url
      signature := signature
      classification := JobClassification.NEW
      classification_reasoning := "New job posting (no previous match found)"
      status := JobStatus.ACTIVE
      first_seen := current_time
      last_seen := current_time
      observations :=
        [{ timestamp := current_time
           source_identifier := raw_job.source_identifier
           url := raw_job.url }]
      source_identifier := raw_job.source_identifier
      department := raw_job.department
      description := raw_job.description
      created_at := some current_time
      updated_at := some current_time }
  (classified,
   { st with known_jobs := st.known_jobs ++ [classified], next_id := st.next_id + 1 })

/-- Round-half-to-even on rationals, the rounding of Python float formatting. -/
def roundHalfEven (q : ℚ) : Int :=
  let f := Int.floor q
  let r := q - (f : ℚ)
  if r < 1/2 then f
  else if (1:ℚ)/2 < r then f + 1
  else if f % 2 = 0 then f else f + 1

/-- Python format specifier .2f for a nonnegative similarity score. -/
def fmt2 (q : ℚ) : String :=
  let hundredths := roundHalfEven (q * 100)
  let ip := hundredths / 100
  let fp := (hundredths % 100).natAbs
  toString ip ++ "." ++ (if fp < 10 then "0" else "") ++ toString fp

/-- Embedding of JobClassifier._classify_as_repost: build a fresh record with
classification Repost, reasoning naming the matched job, and insert it at the
end of the store. -/
def classify_as_repost (st : JobClassifier) (raw_job : RawJob)
    (signature : String) (similar_job : ClassifiedJob) (current_time : Int) :
    ClassifiedJob × JobClassifier :=
  let job_id := toString st.next_id
  let similarity := calculate_similarity signature similar_job.signature
  let classified : ClassifiedJob :=
    { id := job_id
      company_id := raw_job.company_id
      company_name := raw_job.company_name
      title := raw_job.title
      location := raw_job.location
      url := raw_job.url
      signature := signature
      classification := JobClassification.REPOST
      classification_reasoning :=
        "Likely repost of job " ++ similar_job.id ++ " (similarity: " ++
        fmt2 similarity ++ ", first seen: " ++ toString similar_job.first_seen ++ ")"
      status := JobStatus.ACTIVE
      first_seen := current_time
      last_seen := current_time
      observations :=
        [{ timestamp := current_time
           source_identifier := raw_job.source_identifier
           url := raw_job.url }]
      source_identifier := raw_job.source_identifier
      department := raw_job.department
      description := raw_job.description
      created_at := some current_time
      updated_at := some current_time }
  (classified,
   { st with known_jobs := st.known_jobs ++ [classified], next_id := st.next_id + 1 })

/-- The in-place mutation performed by JobClassifier._classify_as_reopened on
the found closed job, in the statement order of the source: the status, the
timestamps, the url and source identifier are assigned first, then the
observation is appended, and only then is classification_reasoning rebuilt —
so the close date it renders reads the already-overwritten last_seen. -/
def reopenFields (raw_job : RawJob) (current_time : Int)
    (job : ClassifiedJob) : ClassifiedJob :=
  let j1 :=
    { job with
      status := JobStatus.REOPENED
      last_seen := current_time
      updated_at := some current_time
      url := raw_job.url
      source_identifier := raw_job.source_identifier }
  let j2 :=
    { j1 with
      observations := j1.observations ++
        [({ timestamp := current_time
            source_identifier := raw_job.source_identifier
            url := raw_job.url
            note := some "Job reopened" } : Observation)] }
  { j2 with
    classification_reasoning :=
      "Job reopened (was closed on " ++ toString j2.last_seen ++
      ", originally first seen " ++ toString j2.first_seen ++ ")" }

/-- Embedding of JobClassifier._classify_as_reopened: mutate the found closed
job in the id-keyed store and return it. -/
def classify_as_reopened (st : JobClassifier) (raw_job : RawJob)
    (signature : String) (closed_job : ClassifiedJob) (current_time : Int) :
    ClassifiedJob × JobClassifier :=
  let reopened := reopenFields raw_job current_time closed_job
  (reopened,
   { st with known_jobs := st.known_jobs.map (fun j =>
       if j.id == closed_job.id then reopenFields raw_job current_time j
       else j) })

/-- Embedding of JobClassifier.classify_job: the exact precedence cascade of
the source — exact source-id match, then recent similar match, then closed
similar match, then brand new.  The signature argument of the reopened branch
is passed exactly as in the source (where it is unused). -/
def classify_job (st : JobClassifier) (raw_job : RawJob) (current_time : Int) :
    ClassifiedJob × JobClassifier :=
  let signature :=
    create_signature raw_job.company_id raw_job.title raw_job.location
  match find_by_source_id st.known_jobs raw_job.company_id raw_job.source_identifier with
  | some existing_job => update_existing_job st existing_job raw_job current_time
  | none =>
    match find_similar_recent_job st signature raw_job.company_id current_time with
    | some similar_job => classify_as_repost st raw_job signature similar_job current_time
    | none =>
      match find_closed_similar_job st signature raw_job.company_id with
      | some closed_job => classify_as_reopened st raw_job signature closed_job current_time
      | none => classify_as_new st raw_job signature current_time

/-- The per-job condition of JobClassifier.mark_missing_jobs: not observed in
this cycle and currently Active. -/
def missingCond (observed_job_ids : List String) (job : ClassifiedJob) : Bool :=
  !(observed_job_ids.contains job.id) && job.status == JobStatus.ACTIVE

/-- Embedding of JobClassifier.mark_missing_jobs: set every not-observed
Active job to Missing, bump its updated_at, and return how many were marked. -/
def mark_missing_jobs (st : JobClassifier) (observed_job_ids : List String)
    (current_time : Int) : Nat × JobClassifier :=
  (st.known_jobs.countP (missingCond observed_job_ids),
   { st with known_jobs := st.known_jobs.map (fun job =>
       if missingCond observed_job_ids job then
         { job with status := JobStatus.MISSING, updated_at := some current_time }
       else job) })

/-- The per-job condition of JobClassifier.close_old_missing_jobs: Missing and
last seen strictly before the cutoff. -/
def closeCond (cutoff_time : Int) (job : ClassifiedJob) : Bool :=
  job.status == JobStatus.MISSING && decide (job.last_seen < cutoff_time)

/-- Embedding of JobClassifier.close_old_missing_jobs: close every job Missing
since before the cutoff and return how many were closed. -/
def close_old_missing_jobs (st : JobClassifier) (timeout_days : Int)
    (current_time : Int) : Nat × JobClassifier :=
  let cutoff_time := current_time - timeout_days
  (st.known_jobs.countP (closeCond cutoff_time),
   { st with known_jobs := st.known_jobs.map (fun job =>
       if closeCond cutoff_time job then
         { job with status := JobStatus.CLOSED, updated_at := some current_time }
       else job) })

theorem lcs_self (l : List Char) : lcs l l = l.length := by
  induction l with
  | nil => rfl
  | cons a as ih =>
    have ih2 : lcsFun as as = as.length := ih
    simp [lcs, lcsFun, lcsRow, ih2]

theorem indelDist_le (s1 s2 : String) :
    indelDist s1 s2 ≤ s1.toList.length + s2.toList.length :=
  Nat.sub_le _ _

theorem indelDist_self (s : String) : indelDist s s = 0 := by
  unfold indelDist
  rw [lcs_self]
  omega

theorem ratio_bound_aux (d L : Nat) (h : d ≤ L) :
    0 ≤ 100 * (1 - (d : ℚ) / (L : ℚ)) ∧ 100 * (1 - (d : ℚ) / (L : ℚ)) ≤ 100 := by
  rcases Nat.eq_zero_or_pos L with hL | hL
  · subst hL
    have hd : d = 0 := Nat.le_zero.mp h
    subst hd
    norm_num
  · have hLq : (0 : ℚ) < L := by exact_mod_cast hL
    have hdq : (d : ℚ) ≤ L := by exact_mod_cast h
    have h1 : (d : ℚ) / L ≤ 1 := (div_le_one hLq).mpr hdq
    have h2 : 0 ≤ (d : ℚ) / L := div_nonneg (by positivity) (le_of_lt hLq)
    constructor <;> linarith

theorem fuzz.ratio_self (s : String) : fuzz.ratio s s = 100 := by
  unfold fuzz.ratio
  dsimp only
  rcases Nat.eq_zero_or_pos (s.toList.length + s.toList.length) with h | h
  · rw [if_pos h]
  · rw [if_neg (Nat.pos_iff_ne_zero.mp h), indelDist_self]
    norm_num

theorem fuzz.ratio_bounds (s1 s2 : String) :
    0 ≤ fuzz.ratio s1 s2 ∧ fuzz.ratio s1 s2 ≤ 100 := by
  unfold fuzz.ratio
  dsimp only
  split_ifs with h
  · norm_num
  · exact ratio_bound_aux _ _ (indelDist_le s1 s2)

theorem fuzz.token_sort_ratio_self (s : String) : fuzz.token_sort_ratio s s = 100 :=
  fuzz.ratio_self _

theorem fuzz.token_sort_ratio_bounds (s1 s2 : String) :
    0 ≤ fuzz.token_sort_ratio s1 s2 ∧ fuzz.token_sort_ratio s1 s2 ≤ 100 :=
  fuzz.ratio_bounds _ _

theorem tsrCore_bounds (ab ba sl d : Nat) (hd : d ≤ ab + ba) :
    0 ≤ tsrCore ab ba sl d ∧ tsrCore ab ba sl d ≤ 100 := by
  rcases Nat.eq_zero_or_pos sl with hsl | hsl
  · subst hsl
    unfold tsrCore
    dsimp only
    rw [if_neg (show ¬((0 : Nat) ≠ 0) by omega), if_pos (show (0 : Nat) = 0 from rfl)]
    exact ratio_bound_aux _ _ (by omega)
  · have hne : sl ≠ 0 := Nat.pos_iff_ne_zero.mp hsl
    unfold tsrCore
    dsimp only
    rw [if_pos (show sl ≠ 0 from hne), if_neg (show ¬(sl = 0) from hne)]
    exact ⟨le_trans (ratio_bound_aux _ _ (by omega)).1 (le_max_left _ _),
      max_le (ratio_bound_aux _ _ (by omega)).2
        (max_le (ratio_bound_aux _ _ (by omega)).2 (ratio_bound_aux _ _ (by omega)).2)⟩

theorem fuzz.token_set_ratio_self (s : String) (h : pySplitWS s ≠ []) :
    fuzz.token_set_ratio s s = 100 := by
  unfold fuzz.token_set_ratio
  dsimp only
  have hne : sortedDedup (pySplitWS s) ≠ [] := by
    unfold sortedDedup
    rw [Ne, List.dedup_eq_nil]
    unfold sortStrs
    intro hnil
    apply h
    cases hs : pySplitWS s with
    | nil => rfl
    | cons x xs =>
      rw [hs] at hnil
      simp only [List.foldr] at hnil
      cases hins : insortStr x (xs.foldr insortStr []) with
      | nil => exact absurd hins (by cases xs.foldr insortStr [] <;> simp [insortStr] <;> split <;> simp)
      | cons y ys => rw [hins] at hnil; exact absurd hnil (by simp)
  have hempty : (sortedDedup (pySplitWS s)).isEmpty = false := by
    cases hs : sortedDedup (pySplitWS s) with
    | nil => exact absurd hs hne
    | cons x xs => rfl
  rw [hempty]
  have hsect : (sortedDedup (pySplitWS s)).filter
      (fun t => (sortedDedup (pySplitWS s)).contains t) = sortedDedup (pySplitWS s) :=
    List.filter_eq_self.mpr (fun a ha => List.elem_eq_true_of_mem ha)
  have hdiff : (sortedDedup (pySplitWS s)).filter
      (fun t => !((sortedDedup (pySplitWS s)).contains t)) = [] :=
    List.filter_eq_nil_iff.mpr (fun a ha => by
      have hc := List.elem_eq_true_of_mem ha
      simp [List.contains, hc]
      exact ha)
  rw [hsect, hdiff]
  simp [hempty]

theorem fuzz.token_set_ratio_bounds (s1 s2 : String) :
    0 ≤ fuzz.token_set_ratio s1 s2 ∧ fuzz.token_set_ratio s1 s2 ≤ 100 := by
  unfold fuzz.token_set_ratio
  dsimp only
  split_ifs with h1 h2
  · norm_num
  · norm_num
  · exact tsrCore_bounds _ _ _ _ (indelDist_le _ _)

theorem calculate_similarity_bounds (s1 s2 : String) :
    0 ≤ calculate_similarity s1 s2 ∧ calculate_similarity s1 s2 ≤ 1 := by
  unfold calculate_similarity
  dsimp only
  split_ifs with h
  · obtain ⟨hl, hu⟩ := fuzz.token_set_ratio_bounds s1 s2
    constructor
    · exact div_nonneg hl (by norm_num)
    · rw [div_le_one (by norm_num)]
      linarith
  · obtain ⟨hc1, hc2⟩ := fuzz.ratio_bounds ((pySplitChar '|' s1).getD 0 "")
      ((pySplitChar '|' s2).getD 0 "")
    obtain ⟨ht1, ht2⟩ := fuzz.token_sort_ratio_bounds ((pySplitChar '|' s1).getD 1 "")
      ((pySplitChar '|' s2).getD 1 "")
    obtain ⟨hl1, hl2⟩ := fuzz.ratio_bounds ((pySplitChar '|' s1).getD 2 "")
      ((pySplitChar '|' s2).getD 2 "")
    constructor
    · apply div_nonneg _ (by norm_num)
      linarith
    · rw [div_le_one (by norm_num)]
      linarith

theorem calculate_similarity_self (s : String)
    (hs : (pySplitChar '|' s).length = 3 ∨ pySplitWS s ≠ []) :
    calculate_similarity s s = 1 := by
  unfold calculate_similarity
  dsimp only
  split_ifs with h
  · have htok : pySplitWS s ≠ [] := by
      rcases hs with h3 | htok
      · rcases h with h | h <;> exact absurd h3 h
      · exact htok
    rw [fuzz.token_set_ratio_self s htok]
    norm_num
  · rw [fuzz.ratio_self, fuzz.token_sort_ratio_self, fuzz.ratio_self]
    norm_num

theorem bestLoop_const (f : String → ℚ) (l : List String) (b : Option String) (s : ℚ)
    (h : ∀ c ∈ l, f c ≤ s) : bestLoop f l (b, s) = (b, s) := by
  induction l with
  | nil => rfl
  | cons c cs ih =>
    show bestLoop f (c :: cs) (b, s) = (b, s)
    unfold bestLoop
    dsimp only
    rw [if_neg (not_lt.mpr (h c (List.mem_cons_self c cs)))]
    exact ih (fun d hd => h d (List.mem_cons_of_mem c hd))

theorem bestLoop_first_max (f : String → ℚ) (c : String) (l1 l2 : List String)
    (h1 : ∀ e ∈ l1, f e < f c) (h2 : ∀ d ∈ l2, f d ≤ f c) :
    ∀ (b : Option String) (s : ℚ), s < f c →
      bestLoop f (l1 ++ c :: l2) (b, s) = (some c, f c) := by
  induction l1 with
  | nil =>
    intro b s hs
    show bestLoop f (c :: l2) (b, s) = (some c, f c)
    unfold bestLoop
    dsimp only
    rw [if_pos hs]
    exact bestLoop_const f l2 _ _ h2
  | cons e l1 ih =>
    intro b s hs
    show bestLoop f (e :: (l1 ++ c :: l2)) (b, s) = (some c, f c)
    unfold bestLoop
    dsimp only
    split_ifs with he
    · exact ih (fun x hx => h1 x (List.mem_cons_of_mem e hx)) _ _
        (h1 e (List.mem_cons_self e l1))
    · exact ih (fun x hx => h1 x (List.mem_cons_of_mem e hx)) _ _ hs

/-- The derived boolean equality on JobStatus is propositional equality. -/
theorem jobStatus_beq (a b : JobStatus) : (a == b) = decide (a = b) := rfl

/-- Scenario job: an Active tracked job of company acme first seen at day 0. -/
def J0 : ClassifiedJob :=
  { id := "0", company_id := "acme", company_name := "Acme", title := "engineer",
    location := "remote", url := "u1", signature := "acme|engineer|remote",
    classification := JobClassification.NEW,
    classification_reasoning := "New job posting (no previous match found)",
    status := JobStatus.ACTIVE, first_seen := 0, last_seen := 0,
    observations := [{ timestamp := 0, source_identifier := some "job-1", url := "u1" }],
    source_identifier := some "job-1", created_at := some 0, updated_at := some 0 }

/-- Scenario state: default configuration (30-day window, 0.90 threshold) with
the single job J0. -/
def stC1 : JobClassifier :=
  { repost_window_days := 30, similarity_threshold := 9/10, known_jobs := [J0], next_id := 1 }

/-- Scenario observation: same company, title and location as J0 but a fresh
source identifier. -/
def rawC1 : RawJob :=
  { company_id := "acme", company_name := "Acme", title := "engineer", location := "remote",
    url := "u2", source_identifier := some "job-2" }

/-- Scenario job for reopening: Closed, with the stored signature carrying the
title words in the opposite order. -/
def JC2 : ClassifiedJob :=
  { J0 with signature := "acme|engineer senior|remote", title := "engineer senior",
            status := JobStatus.CLOSED }

/-- Scenario state holding only the closed job JC2. -/
def stC2 : JobClassifier :=
  { repost_window_days := 30, similarity_threshold := 9/10, known_jobs := [JC2], next_id := 1 }

/-- Scenario observation whose freshly computed signature differs from the
stored signature of JC2 but token-sorts to the same title. -/
def rawC2 : RawJob :=
  { company_id := "acme", company_name := "Acme", title := "Senior Engineer",
    location := "Remote", url := "u2", source_identifier := some "job-2" }

/-- Scenario job: J0 in status Reopened. -/
def JC3 : ClassifiedJob := { J0 with status := JobStatus.REOPENED }

/-- Scenario state holding only the reopened job JC3. -/
def stC3 : JobClassifier :=
  { repost_window_days := 30, similarity_threshold := 9/10, known_jobs := [JC3], next_id := 1 }

/-- Scenario observation carrying the same source identifier as the stored
jobs JC3 and JC10. -/
def rawC3 : RawJob := { rawC1 with source_identifier := some "job-1" }

/-- Scenario job: J0 closed with last_seen at day 10. -/
def JC4 : ClassifiedJob := { J0 with status := JobStatus.CLOSED, last_seen := 10 }

/-- Scenario state holding only the closed job JC4. -/
def stC4 : JobClassifier :=
  { repost_window_days := 30, similarity_threshold := 9/10, known_jobs := [JC4], next_id := 1 }

/-- Scenario job: J0 closed with last_seen at day 2. -/
def JC10 : ClassifiedJob := { J0 with status := JobStatus.CLOSED, last_seen := 2 }

/-- Scenario state holding only the closed job JC10. -/
def stC10 : JobClassifier :=
  { repost_window_days := 30, similarity_threshold := 9/10, known_jobs := [JC10], next_id := 1 }

/-- A pointwise map that preserves the classification field preserves it at
every position of the list (getD view). -/
theorem getD_map_classification (f : ClassifiedJob → ClassifiedJob)
    (hf : ∀ j, (f j).classification = j.classification)
    (l : List ClassifiedJob) (i : Nat) (d : ClassifiedJob) :
    ((l.map f).getD i d).classification = (l.getD i d).classification := by
  rw [List.getD_eq_getElem?_getD, List.getD_eq_getElem?_getD, List.getElem?_map]
  cases h : l[i]? with
  | none => rfl
  | some x => exact hf x

/-- Appending at the end of the store leaves every existing position
unchanged. -/
theorem getD_append_lt (l l2 : List ClassifiedJob) (i : Nat) (d : ClassifiedJob)
    (h : i < l.length) : (l ++ l2).getD i d = l.getD i d := by
  rw [List.getD_eq_getElem?_getD, List.getD_eq_getElem?_getD, List.getElem?_append,
    if_pos h]

/-- C1 counterexample: a job whose last_seen equals exactly
current_time - repost_window_days is in the candidate set, and an otherwise
identical observation at that boundary is classified Repost, not New — the
claim asserts it would be excluded and classified New. -/
theorem C1_counterexample :
    J0.last_seen = 30 - stC1.repost_window_days
    ∧ J0.status ≠ JobStatus.CLOSED
    ∧ (classify_job stC1 rawC1 30).1.classification = JobClassification.REPOST
    ∧ (classify_job stC1 rawC1 30).1.classification ≠ JobClassification.NEW := by
  with_unfolding_all exact of_decide_eq_true rfl

/-- C1 (amended): the repost window boundary is inclusive — every job of the
same company, not Closed, whose last_seen equals exactly now minus
repost_window_days belongs to the recent-similar candidate set built by
the classifier. -/
theorem C1_boundary_inclusive (jobs : List ClassifiedJob) (company_id : String)
    (now w : Int) (job : ClassifiedJob)
    (hmem : job ∈ jobs) (hco : job.company_id = company_id)
    (hst : job.status ≠ JobStatus.CLOSED)
    (hls : job.last_seen = now - w) :
    job ∈ recent_jobs_of jobs company_id (now - w) := by
  unfold recent_jobs_of
  refine List.mem_filter.mpr ⟨hmem, ?_⟩
  simp [hco, hls, jobStatus_beq, hst]

/-- Witness for C1_boundary_inclusive at the concrete boundary scenario. -/
theorem C1_boundary_inclusive_witness : J0 ∈ recent_jobs_of [J0] "acme" (30 - 30) :=
  C1_boundary_inclusive [J0] "acme" 30 30 J0 (List.mem_singleton.mpr rfl) rfl
    (by decide) (by decide)

/-- C2 counterexample: reopening JC2 returns the job with its old stored
signature, not the signature freshly computed from the raw observation — the
claim asserts the signature is recomputed on reopening. -/
theorem C2_counterexample :
    (classify_job stC2 rawC2 60).1.status = JobStatus.REOPENED
    ∧ (classify_job stC2 rawC2 60).1.signature = "acme|engineer senior|remote"
    ∧ create_signature rawC2.company_id rawC2.title rawC2.location
        = "acme|senior engineer|remote"
    ∧ (classify_job stC2 rawC2 60).1.signature ≠
        create_signature rawC2.company_id rawC2.title rawC2.location := by
  with_unfolding_all exact of_decide_eq_true rfl

/-- C2 (amended): on the reopening path classify_job leaves the stored
signature untouched — the freshly computed signature is not written to the
job; the returned job keeps the signature it had before the call. -/
theorem C2_reopen_keeps_signature (st : JobClassifier) (raw_job : RawJob) (t : Int)
    (j : ClassifiedJob)
    (hid : find_by_source_id st.known_jobs raw_job.company_id
      raw_job.source_identifier = none)
    (hrec : find_similar_recent_job st
      (create_signature raw_job.company_id raw_job.title raw_job.location)
      raw_job.company_id t = none)
    (hclo : find_closed_similar_job st
      (create_signature raw_job.company_id raw_job.title raw_job.location)
      raw_job.company_id = some j) :
    (classify_job st raw_job t).1.signature = j.signature := by
  unfold classify_job
  simp only [hid, hrec, hclo]
  rfl

/-- Witness for C2_reopen_keeps_signature at the concrete reopening
scenario. -/
theorem C2_reopen_keeps_signature_witness :
    (classify_job stC2 rawC2 60).1.signature = JC2.signature :=
  C2_reopen_keeps_signature stC2 rawC2 60 JC2
    (by with_unfolding_all exact of_decide_eq_true rfl)
    (by with_unfolding_all exact of_decide_eq_true rfl)
    (by with_unfolding_all exact of_decide_eq_true rfl)

/-- C3 counterexample: a Reopened job re-observed through the exact
source-identifier path stays Reopened — the claim asserts its status becomes
Active. -/
theorem C3_counterexample :
    JC3.status = JobStatus.REOPENED
    ∧ (classify_job stC3 rawC3 5).1.id = JC3.id
    ∧ (classify_job stC3 rawC3 5).1.status = JobStatus.REOPENED
    ∧ (classify_job stC3 rawC3 5).1.status ≠ JobStatus.ACTIVE := by
  with_unfolding_all exact of_decide_eq_true rfl

/-- C3 (amended): on the exact-identifier path only a Missing job flips to
Active; a Reopened job keeps status Reopened after the call. -/
theorem C3_reopened_stays_reopened (st : JobClassifier) (raw_job : RawJob) (t : Int)
    (j : ClassifiedJob)
    (hid : find_by_source_id st.known_jobs raw_job.company_id
      raw_job.source_identifier = some j)
    (hre : j.status = JobStatus.REOPENED) :
    (classify_job st raw_job t).1.status = JobStatus.REOPENED := by
  unfold classify_job
  simp only [hid]
  unfold update_existing_job updateExistingFields
  dsimp only
  rw [hre]
  rfl

/-- Witness for C3_reopened_stays_reopened at the concrete scenario. -/
theorem C3_reopened_stays_reopened_witness :
    (classify_job stC3 rawC3 5).1.status = JobStatus.REOPENED :=
  C3_reopened_stays_reopened stC3 rawC3 5 JC3 (by decide) rfl

/-- C4: the rewritten reopening reasoning prints the already-overwritten
last_seen — at this failing input the job was last seen (closed) at day 10,
yet the reasoning claims it was closed on day 60, the day of the reopening
observation. -/
theorem C4_reasoning_prints_reopen_date :
    JC4.last_seen = 10
    ∧ (classify_job stC4 rawC1 60).1.id = JC4.id
    ∧ (classify_job stC4 rawC1 60).1.status = JobStatus.REOPENED
    ∧ (classify_job stC4 rawC1 60).1.classification_reasoning =
        "Job reopened (was closed on 60, originally first seen 0)" := by
  with_unfolding_all exact of_decide_eq_true rfl

/-- C5 counterexample: on the degenerate signature with no tokens and not
three pipe-parts (the empty string) the token-set fallback returns 0, so the
self-similarity is 0, not 1. -/
theorem C5_counterexample :
    calculate_similarity "" "" = 0 ∧ calculate_similarity "" "" ≠ 1 := by
  with_unfolding_all exact of_decide_eq_true rfl

/-- C5 (amended): self-similarity is exactly 1 for every signature that
splits into three pipe-parts or contains at least one whitespace token (the
degenerate tokenless non-three-part strings fall back to the token-set score
0); and every similarity score lies in the closed interval from 0 to 1. -/
theorem C5_similarity_range (s s1 s2 : String) :
    ((pySplitChar '|' s).length = 3 ∨ pySplitWS s ≠ [] → calculate_similarity s s = 1)
    ∧ 0 ≤ calculate_similarity s1 s2 ∧ calculate_similarity s1 s2 ≤ 1 :=
  ⟨fun h => calculate_similarity_self s h, calculate_similarity_bounds s1 s2⟩

/-- Witness for C5_similarity_range on a three-part signature and an
arbitrary pair. -/
theorem C5_similarity_range_witness :
    calculate_similarity "acme|engineer|remote" "acme|engineer|remote" = 1
    ∧ 0 ≤ calculate_similarity "a" "b" ∧ calculate_similarity "a" "b" ≤ 1 :=
  ⟨(C5_similarity_range "acme|engineer|remote" "a" "b").1 (Or.inl (by decide)),
   (C5_similarity_range "acme|engineer|remote" "a" "b").2⟩

/-- C6 counterexample: with threshold 0 and two candidates tied at the
maximal score 0 (which is at the threshold), find_best_match returns no
candidate at all instead of the first tied one, because the scan starts from
best score 0.0 and only a strict improvement records a candidate. -/
theorem C6_counterexample :
    calculate_similarity "a|b|c" "d|e|f" = 0
    ∧ calculate_similarity "a|b|c" "g|h|i" = 0
    ∧ find_best_match 0 "a|b|c" ["d|e|f", "g|h|i"] = none := by
  with_unfolding_all exact of_decide_eq_true rfl

/-- C6 (amended): whenever the maximal similarity is positive and at or above
the threshold, find_best_match returns the earliest candidate attaining that
maximum: every earlier candidate scores strictly less, every later one at
most as much, and the first maximiser is returned. -/
theorem C6_tie_first_wins (threshold : ℚ) (query : String)
    (l1 l2 : List String) (c : String)
    (h1 : ∀ e ∈ l1, calculate_similarity query e < calculate_similarity query c)
    (h2 : ∀ d ∈ l2, calculate_similarity query d ≤ calculate_similarity query c)
    (hpos : 0 < calculate_similarity query c)
    (hthr : threshold ≤ calculate_similarity query c) :
    find_best_match threshold query (l1 ++ c :: l2) = some c := by
  unfold find_best_match
  rw [if_neg (by cases l1 <;> simp)]
  dsimp only
  rw [bestLoop_first_max _ c l1 l2 h1 h2 none 0 hpos]
  dsimp only
  rw [if_pos hthr]

/-- Witness for C6_tie_first_wins: two candidates tied at score 0.9 behind a
lower-scoring first candidate; the earlier of the tied pair is returned. -/
theorem C6_tie_first_wins_witness :
    find_best_match (9/10) "a|b|c" (["a|z|z"] ++ "d|b|c" :: ["e|b|c"]) = some "d|b|c" :=
  C6_tie_first_wins (9/10) "a|b|c" ["a|z|z"] ["e|b|c"] "d|b|c"
    (by
      intro e he
      rw [List.mem_singleton] at he
      subst he
      with_unfolding_all exact of_decide_eq_true rfl)
    (by
      intro d hd
      rw [List.mem_singleton] at hd
      subst hd
      with_unfolding_all exact of_decide_eq_true rfl)
    (by with_unfolding_all exact of_decide_eq_true rfl)
    (by with_unfolding_all exact of_decide_eq_true rfl)

/-- C7: matcher construction rejects every threshold outside the closed unit
interval with an error and stores every in-range threshold unchanged. -/
theorem C7_threshold_validation (t : ℚ) :
    ((0 ≤ t ∧ t ≤ 1) → JobMatcher.init t = Except.ok { similarity_threshold := t })
    ∧ (¬(0 ≤ t ∧ t ≤ 1) → ∃ msg, JobMatcher.init t = Except.error msg) := by
  constructor
  · intro h
    unfold JobMatcher.init
    rw [if_neg (not_not_intro h)]
  · intro h
    unfold JobMatcher.init
    rw [if_pos h]
    exact ⟨_, rfl⟩

/-- Witness for C7_threshold_validation at the in-range threshold 0.9 and
the out-of-range threshold 1.5. -/
theorem C7_threshold_validation_witness :
    JobMatcher.init (9/10) = Except.ok { similarity_threshold := 9/10 }
    ∧ ∃ msg, JobMatcher.init (3/2) = Except.error msg :=
  ⟨(C7_threshold_validation (9/10)).1 (by norm_num),
   (C7_threshold_validation (3/2)).2 (by norm_num)⟩

/-- C8: mark_missing_jobs is idempotent — an immediately repeated call with
the same observed-id list marks zero jobs and leaves the whole classifier
state (in particular every status) unchanged. -/
theorem C8_mark_missing_idempotent (st : JobClassifier) (observed : List String)
    (t1 t2 : Int) :
    (mark_missing_jobs (mark_missing_jobs st observed t1).2 observed t2).1 = 0
    ∧ (mark_missing_jobs (mark_missing_jobs st observed t1).2 observed t2).2
        = (mark_missing_jobs st observed t1).2 := by
  have key : ∀ j : ClassifiedJob, missingCond observed
      (if missingCond observed j then
        { j with status := JobStatus.MISSING, updated_at := some t1 }
      else j) = false := by
    intro j
    cases hcv : missingCond observed j with
    | false =>
      rw [if_neg (show ¬(false = true) by simp)]
      exact hcv
    | true =>
      rw [if_pos (show true = true from rfl)]
      unfold missingCond
      simp [jobStatus_beq]
  constructor
  · dsimp [mark_missing_jobs]
    refine List.countP_eq_zero.mpr ?_
    intro x hx
    rw [List.mem_map] at hx
    obtain ⟨y, _, rfl⟩ := hx
    simp [key y]
  · dsimp [mark_missing_jobs]
    have hmap : ∀ x ∈ (st.known_jobs.map (fun j =>
        if missingCond observed j then
          { j with status := JobStatus.MISSING, updated_at := some t1 }
        else j)),
        (if missingCond observed x then
          { x with status := JobStatus.MISSING, updated_at := some t2 }
        else x) = x := by
      intro x hx
      rw [List.mem_map] at hx
      obtain ⟨y, _, rfl⟩ := hx
      rw [if_neg (by simp [key y])]
    rw [List.map_congr_left hmap, List.map_id']

/-- C9: the classification field of every pre-existing tracked job is left
unchanged by classify_job (all four of its paths), by mark_missing_jobs and
by close_old_missing_jobs — it is only ever set at record creation. -/
theorem C9_classification_immutable (st : JobClassifier) (raw_job : RawJob)
    (current_time t2 t3 timeout_days : Int) (observed : List String)
    (i : Nat) (d : ClassifiedJob) (h : i < st.known_jobs.length) :
    (((classify_job st raw_job current_time).2.known_jobs.getD i d).classification
        = (st.known_jobs.getD i d).classification)
    ∧ (((mark_missing_jobs st observed t2).2.known_jobs.getD i d).classification
        = (st.known_jobs.getD i d).classification)
    ∧ (((close_old_missing_jobs st timeout_days t3).2.known_jobs.getD i d).classification
        = (st.known_jobs.getD i d).classification) := by
  refine ⟨?_, ?_, ?_⟩
  · unfold classify_job
    dsimp only
    cases h1 : find_by_source_id st.known_jobs raw_job.company_id
        raw_job.source_identifier with
    | some j =>
      dsimp [update_existing_job]
      apply getD_map_classification
      intro j2
      dsimp only
      split
      · rfl
      · rfl
    | none =>
      cases h2 : find_similar_recent_job st
          (create_signature raw_job.company_id raw_job.title raw_job.location)
          raw_job.company_id current_time with
      | some j =>
        dsimp [classify_as_repost]
        rw [getD_append_lt _ _ _ _ h]
      | none =>
        cases h3 : find_closed_similar_job st
            (create_signature raw_job.company_id raw_job.title raw_job.location)
            raw_job.company_id with
        | some j =>
          dsimp [classify_as_reopened]
          apply getD_map_classification
          intro j2
          dsimp only
          split
          · rfl
          · rfl
        | none =>
          dsimp [classify_as_new]
          rw [getD_append_lt _ _ _ _ h]
  · dsimp [mark_missing_jobs]
    apply getD_map_classification
    intro j
    dsimp only
    split
    · rfl
    · rfl
  · dsimp [close_old_missing_jobs]
    apply getD_map_classification
    intro j
    dsimp only
    split
    · rfl
    · rfl

/-- Witness for C9_classification_immutable at the concrete one-job state. -/
theorem C9_classification_immutable_witness :
    (((classify_job stC1 rawC1 30).2.known_jobs.getD 0 J0).classification
        = (stC1.known_jobs.getD 0 J0).classification)
    ∧ (((mark_missing_jobs stC1 [] 7).2.known_jobs.getD 0 J0).classification
        = (stC1.known_jobs.getD 0 J0).classification)
    ∧ (((close_old_missing_jobs stC1 5 40).2.known_jobs.getD 0 J0).classification
        = (stC1.known_jobs.getD 0 J0).classification) :=
  C9_classification_immutable stC1 rawC1 30 7 40 5 [] 0 J0 (by decide)

/-- C10: a Closed job re-observed with its stored (nonempty) source
identifier takes the exact-identifier path: the same record is returned with
last_seen bumped to the observation time, exactly one appended observation,
its classification untouched, and its status still Closed — the reopening
transition never fires on this path. -/
theorem C10_exact_match_on_closed (st : JobClassifier) (raw_job : RawJob) (t : Int)
    (j : ClassifiedJob) (s : String)
    (hsrc : raw_job.source_identifier = some s) (hs : s ≠ "")
    (hid : find_by_source_id st.known_jobs raw_job.company_id
      raw_job.source_identifier = some j)
    (hclosed : j.status = JobStatus.CLOSED) :
    (classify_job st raw_job t).1.id = j.id
    ∧ (classify_job st raw_job t).1.status = JobStatus.CLOSED
    ∧ (classify_job st raw_job t).1.last_seen = t
    ∧ (classify_job st raw_job t).1.observations =
        j.observations ++ [{ timestamp := t, source_identifier := raw_job.source_identifier,
                             url := raw_job.url, note := none }]
    ∧ (classify_job st raw_job t).1.classification = j.classification := by
  unfold classify_job
  simp only [hid]
  unfold update_existing_job updateExistingFields
  dsimp only
  refine ⟨rfl, ?_, rfl, rfl, rfl⟩
  rw [hclosed]
  rfl

/-- Witness for C10_exact_match_on_closed at the concrete closed-job
scenario (where the observation would also be a perfect signature match for
reopening, showing the exact path takes precedence). -/
theorem C10_exact_match_on_closed_witness :
    (classify_job stC10 rawC3 5).1.id = JC10.id
    ∧ (classify_job stC10 rawC3 5).1.status = JobStatus.CLOSED
    ∧ (classify_job stC10 rawC3 5).1.last_seen = 5
    ∧ (classify_job stC10 rawC3 5).1.observations =
        JC10.observations ++ [{ timestamp := 5, source_identifier := rawC3.source_identifier,
                                url := rawC3.url, note := none }]
    ∧ (classify_job stC10 rawC3 5).1.classification = JC10.classification :=
  C10_exact_match_on_closed stC10 rawC3 5 JC10 "job-1" rfl (by decide) (by decide) rfl
